import Mathlib

/-
Verification of the uWave acoustic modem monitor (uwave_interface.py).

The embedding models the monitor as a pure state machine:
  - strings are Lean strings; the helpers below reimplement the Python
    string operations used by the source (strip, split, lstrip, startswith,
    slicing) structurally over the underlying character lists so that they
    reduce inside the kernel;
  - Python floats are modelled as rationals, with parseFloat modelling the
    float(str) conversion (sign, decimal point, exponent); a conversion
    failure models a raised ValueError;
  - the serial line is modelled as a list of incoming lines (already
    decoded; an empty string models a read that timed out), threaded in
    and out of send_command;
  - the files (communication log, metrics CSV) are lists of entries inside
    the monitor state; timestamps are rationals passed in by the caller.
-/

namespace Uwave

/-! ## Python string helpers -/

/-- Python str.strip: drop leading and trailing whitespace (char list). -/
def trimL (l : List Char) : List Char :=
  ((l.dropWhile Char.isWhitespace).reverse.dropWhile Char.isWhitespace).reverse

/-- Python str.strip on strings. -/
def trimS (s : String) : String := String.mk (trimL s.data)

/-- Split a character list on a separator, Python str.split(sep) style:
the empty list splits to one empty field. -/
def splitChar (sep : Char) : List Char → List (List Char)
  | [] => [[]]
  | c :: rest =>
    match splitChar sep rest with
    | [] => [[c]]
    | h :: t => if c = sep then [] :: h :: t else (c :: h) :: t

/-- Python s.startswith(p). -/
def strStartsWith (s p : String) : Bool := p.data.isPrefixOf s.data

/-- Python s[:n]. -/
def takeStr (s : String) (n : Nat) : String := String.mk (s.data.take n)

/-- Lowercase an ASCII letter (Python str.lower, restricted to ASCII,
which is all the protocol carries). -/
def lowerChar (c : Char) : Char :=
  if 'A' ≤ c ∧ c ≤ 'Z' then Char.ofNat (c.toNat + 32) else c

def lowerL (l : List Char) : List Char := l.map lowerChar

/-! ## Python float(str), modelled over the rationals -/

def digitsVal (l : List Char) : Nat :=
  l.foldl (fun a c => a * 10 + (c.toNat - 48)) 0

/-- Strip one optional leading sign, returning its value. -/
def parseSign : List Char → Int × List Char
  | '-' :: r => (-1, r)
  | '+' :: r => (1, r)
  | l => (1, l)

/-- Unsigned decimal mantissa: digits, optionally with one decimal point;
at least one digit somewhere. -/
def parseUDec (l : List Char) : Option ℚ :=
  match splitChar '.' l with
  | [a] => if !a.isEmpty && a.all Char.isDigit then some (digitsVal a : ℚ) else none
  | [a, b] =>
    if (!a.isEmpty || !b.isEmpty) && a.all Char.isDigit && b.all Char.isDigit then
      some ((digitsVal a : ℚ) + (digitsVal b : ℚ) / (10 : ℚ) ^ b.length)
    else none
  | _ => none

/-- Signed integer exponent part after the e. -/
def parseExpPart (l : List Char) : Option Int :=
  let (sg, u) := parseSign l
  if !u.isEmpty && u.all Char.isDigit then some (sg * (digitsVal u : Int)) else none

/-- Python float(str): optional surrounding whitespace, optional sign,
decimal mantissa, optional e-exponent. None models a raised ValueError. -/
def parseFloat (str : String) : Option ℚ :=
  let t := lowerL (trimL str.data)
  let (sg, u) := parseSign t
  match splitChar 'e' u with
  | [m] => (parseUDec m).map (fun q => (sg : ℚ) * q)
  | [m, e] =>
    match parseUDec m, parseExpPart e with
    | some q, some ex => some ((sg : ℚ) * q * (10 : ℚ) ^ ex)
    | _, _ => none
  | _ => none

/-! ## Module constants (uwave_interface.py lines 9-13) -/

def DEFAULT_SALINITY : ℚ := 0
def DEFAULT_DEPTH : ℚ := 0

/-! ## Monitor state

The mutable attributes of UwaveMonitor together with the models of the two
sink files and of the bytes written to the serial transport. -/

inductive LogEntry where
  | tx (timestamp : ℚ) (line : String)
  | rx (timestamp : ℚ) (line : String)
  deriving DecidableEq

/-- One row of the metrics CSV (log_metrics); the formatting of the
numeric cells is abstracted away, the values themselves are kept. -/
structure MetricRow where
  timestamp : ℚ
  command : String
  response_type : String
  remote_addr : String
  cmd_id : String
  prop_time : ℚ
  signal_quality : ℚ
  value : ℚ
  slant_range : ℚ
  horiz_dist : ℝ
  velocity : ℚ

structure MState where
  /-- none: never connected; some b: a port whose is_open flag is b. -/
  ser : Option Bool
  salinity : ℚ
  last_range : Option ℚ
  last_range_time : Option ℚ
  /-- Lines written to the serial transport. -/
  written : List String
  /-- The communication log file (append-only). -/
  log : List LogEntry
  /-- The metrics CSV file (append-only). -/
  metrics : List MetricRow

/-- A raised-and-unhandled Python error escaping send_command. -/
inductive PyErr where
  | valueError (field : String) (text : String)
  deriving DecidableEq

/-! ## Sentence parsing (lines 155-238) -/

/-- response.split("*")[0].split(",") -/
def splitFields (response : String) : List String :=
  (splitChar ',' (response.data.takeWhile (fun c => c != '*'))).map String.mk

structure Puwv3Record where
  cmd_type : String
  remote_addr : String
  cmd_id : String
  prop_time : String
  signal_quality : String
  value : String
  azimuth : String
  deriving DecidableEq

/-- parse_puwv3 (lines 155-179): fields 1-4 are required (an IndexError on
a shorter list is caught and turned into None); value and azimuth default
to the empty string. -/
def parse_puwv3 (response : String) : Option Puwv3Record :=
  let parts := splitFields response
  if parts.length < 5 then none
  else
    some
      { cmd_type := takeStr (parts.getD 0 "") 5
        remote_addr := parts.getD 1 ""
        cmd_id := parts.getD 2 ""
        prop_time := parts.getD 3 ""
        signal_quality := parts.getD 4 ""
        value := parts.getD 5 ""
        azimuth := parts.getD 6 "" }

structure DeviceInfoRecord where
  cmd_type : String
  serial_number : String
  system_moniker : String
  system_version : String
  core_moniker : String
  core_version : String
  baudrate : String
  rx_channel : String
  tx_channel : String
  max_channels : String
  salinity : String
  has_pts : String
  cmd_mode : String
  deriving DecidableEq

/-- parse_puwv_bang (lines 199-238): 13 fields required; float(salinity) is
assigned to self.salinity before the record is returned, and if that
conversion raises, the exception is caught, None is returned and the state
is left unchanged. -/
def parse_puwv_bang (response : String) (s : MState) :
    Option DeviceInfoRecord × MState :=
  let parts := splitFields response
  if parts.length < 13 then (none, s)
  else
    match parseFloat (parts.getD 10 "") with
    | none => (none, s)
    | some v =>
      (some
        { cmd_type := takeStr (parts.getD 0 "") 5
          serial_number := parts.getD 1 ""
          system_moniker := parts.getD 2 ""
          system_version := parts.getD 3 ""
          core_moniker := parts.getD 4 ""
          core_version := parts.getD 5 ""
          baudrate := parts.getD 6 ""
          rx_channel := parts.getD 7 ""
          tx_channel := parts.getD 8 ""
          max_channels := parts.getD 9 ""
          salinity := parts.getD 10 ""
          has_pts := parts.getD 11 ""
          cmd_mode := parts.getD 12 "" },
        { s with salinity := v })

/-! ## Checksum and command framing (lines 240-257) -/

def hexDigitU (n : Nat) : Char :=
  if n < 10 then Char.ofNat (48 + n) else Char.ofNat (55 + n)

/-- Uppercase hex digits of a positive number (fuel-structural so that it
reduces in the kernel; the first argument is fuel, always sufficient when
it starts at the number itself). -/
def hexRepAux : Nat → Nat → List Char
  | _, 0 => []
  | 0, _ + 1 => []
  | fuel + 1, m + 1 => hexRepAux fuel ((m + 1) / 16) ++ [hexDigitU ((m + 1) % 16)]

/-- Python "{:02X}".format(n): uppercase hex, zero-padded to width 2. -/
def format02X (n : Nat) : String :=
  let ds := if n = 0 then ['0'] else hexRepAux n n
  String.mk (List.replicate (2 - ds.length) '0' ++ ds)

/-- calculate_nmea_checksum (lines 240-249): XOR the code points of the
characters after the leading dollar signs (lstrip) and before the first
star, render with "{:02X}". -/
def calculate_nmea_checksum (sentence : String) : String :=
  let checksum_part :=
    (sentence.data.dropWhile (fun c => c = '$')).takeWhile (fun c => c != '*')
  let checksum := checksum_part.foldl (fun a c => a ^^^ c.toNat) 0
  format02X checksum

/-- format_command (lines 251-257). -/
def format_command (command : String) (include_checksum : Bool) : String :=
  if !include_checksum || command.data.contains '*' then command
  else command ++ "*" ++ calculate_nmea_checksum command

/-! ## Physical calculations (lines 102-153) -/

/-- calculate_sound_velocity (lines 102-122), Mackenzie equation; the three
grouped sums mirror the accumulation in the source. The salinity=None and
depth=None defaulting of the source is made explicit at the call sites. -/
def calculate_sound_velocity (temperature salinity depth : ℚ) : ℚ :=
  (1448.96 + 4.591 * temperature - 5.304e-2 * temperature ^ 2
      + 2.374e-4 * temperature ^ 3)
    + (1.340 * (salinity - 35) + 1.63e-2 * depth + 1.675e-7 * depth ^ 2)
    + (-1.025e-2 * temperature * (salinity - 35)
        - 7.139e-13 * temperature * depth ^ 3)

/-- calculate_slant_range (lines 124-126). -/
def calculate_slant_range (propagation_time sound_velocity : ℚ) : ℚ :=
  |propagation_time| * sound_velocity / 2

/-- calculate_horizontal_distance (lines 128-134). -/
noncomputable def calculate_horizontal_distance
    (slant_range depth_difference : ℚ) : ℝ :=
  if |depth_difference| ≥ slant_range then 0
  else Real.sqrt ((slant_range : ℝ) ^ 2 - (depth_difference : ℝ) ^ 2)

/-- calculate_velocity (lines 136-153), stateful over last_range and
last_range_time; times are rationals (seconds). -/
def calculate_velocity (s : MState) (current_range current_time : ℚ) :
    ℚ × MState :=
  match s.last_range, s.last_range_time with
  | some lr, some lt =>
    let time_diff := current_time - lt
    if time_diff ≤ 0 then (0, s)
    else
      ((current_range - lr) / time_diff,
        { s with last_range := some current_range,
                 last_range_time := some current_time })
  | _, _ =>
    (0, { s with last_range := some current_range,
                 last_range_time := some current_time })

/-! ## Logging sinks (lines 350-392) -/

/-- log_communication (lines 350-359): append a TX line when a command is
given, an RX line when a response is given (Python truthiness: None and
the empty string both skip the line). -/
def log_communication (s : MState) (command response : Option String)
    (timestamp : ℚ) : MState :=
  { s with
    log := s.log
      ++ (match command with
          | some c => if c = "" then [] else [LogEntry.tx timestamp c]
          | none => [])
      ++ (match response with
          | some r => if r = "" then [] else [LogEntry.rx timestamp r]
          | none => []) }

/-- log_metrics (lines 361-392): append one CSV row. -/
def log_metrics (s : MState) (timestamp : ℚ)
    (command response_type remote_addr cmd_id : String)
    (prop_time signal_quality value slant_range : ℚ) (horiz_dist : ℝ)
    (velocity : ℚ) : MState :=
  { s with
    metrics := s.metrics
      ++ [{ timestamp := timestamp
            command := command
            response_type := response_type
            remote_addr := remote_addr
            cmd_id := cmd_id
            prop_time := prop_time
            signal_quality := signal_quality
            value := value
            slant_range := slant_range
            horiz_dist := horiz_dist
            velocity := velocity }] }

/-! ## The send exchange (lines 259-348)

The serial input is a list of lines; reading past its end models a read
that timed out (the empty line). now is the timestamp taken at the start
of the exchange (line 273), vt the one taken for the velocity computation
(line 307). -/

/-- One bounded readline: the decoded, stripped line plus the rest of the
stream; the empty string is a timed-out read. -/
def readLine : List String → String × List String
  | [] => ("", [])
  | l :: r => (trimS l, r)

/-- The body run for the first $PUWV3 line of the follow-up loop
(lines 294-342): acc already holds the line. Numeric conversions that
fail raise ValueError (lines 297, 298 and 334), aborting the exchange. -/
noncomputable def processPuwv3 (line full : String) (acc : List String)
    (s : MState) (now vt : ℚ) : Except PyErr (List String × MState) :=
  match parse_puwv3 line with
  | none => .ok (acc, log_communication s none (some line) now)
  | some p =>
    if p.cmd_id = "3" ∧ p.value ≠ "" then
      match parseFloat p.value with
      | none => .error (.valueError "value" p.value)
      | some temp =>
        match parseFloat p.prop_time with
        | none => .error (.valueError "prop_time" p.prop_time)
        | some prop_time =>
          let sound_vel := calculate_sound_velocity temp s.salinity DEFAULT_DEPTH
          let slant_range := calculate_slant_range prop_time sound_vel
          let horiz_dist := calculate_horizontal_distance slant_range 0
          let vs := calculate_velocity s slant_range vt
          match parseFloat p.signal_quality with
          | none => .error (.valueError "signal_quality" p.signal_quality)
          | some sq =>
            let s2 := log_metrics vs.2 now full "PUWV3" p.remote_addr p.cmd_id
              prop_time sq temp slant_range horiz_dist vs.1
            .ok (acc, log_communication s2 none (some line) now)
    else .ok (acc, log_communication s none (some line) now)

/-- The follow-up polling loop (lines 284-346): up to 5 timed-out reads;
non-empty lines are collected; the first $PUWV3 line is processed and
breaks the loop. Returns the collected lines, the state and the unread
remainder of the input stream. -/
noncomputable def followup (input : List String) (timeout_count : Nat)
    (acc : List String) (s : MState) (full : String) (now vt : ℚ) :
    Except PyErr (List String × MState × List String) :=
  if 5 ≤ timeout_count then .ok (acc, s, input)
  else
    match input with
    | [] => followup [] (timeout_count + 1) acc s full now vt
    | x :: rest =>
      let line := trimS x
      if line = "" then followup rest (timeout_count + 1) acc s full now vt
      else
        let acc2 := acc ++ [line]
        if strStartsWith line "$PUWV3" then
          (processPuwv3 line full acc2 s now vt).map (fun p => (p.1, p.2, rest))
        else followup rest timeout_count acc2 s full now vt
termination_by input.length + (5 - timeout_count)
decreasing_by
  all_goals simp_wf
  all_goals omega

/-- send_command (lines 259-348). Returns the main response, the list of
additional responses, the final state and the unread remainder of the
input stream; an escaping ValueError is the error case. -/
noncomputable def send_command (s : MState) (command : String)
    (wait_for_response wait_for_puwv3 : Bool) (input : List String)
    (now vt : ℚ) :
    Except PyErr (Option String × List String × MState × List String) :=
  if s.ser ≠ some true then .ok (none, [], s, input)
  else
    let full := format_command command true
    let s0 := { s with written := s.written ++ [full ++ "\n"] }
    if wait_for_response then
      let lr := readLine input
      let mainr : Option String := if lr.1 = "" then none else some lr.1
      let s1 :=
        if lr.1 = "" then s0
        else log_communication s0 (some full) (some lr.1) now
      if wait_for_puwv3 && strStartsWith command "$PUWV2" then
        (followup lr.2 0 [] s1 full now vt).map
          (fun r => (mainr, r.1, r.2.1, r.2.2))
      else .ok (mainr, [], s1, lr.2)
    else .ok (none, [], s0, input)

/-! ## Spec-side formulations used by the claims -/

/-- The Mackenzie polynomial exactly as the spec states it (section 4.3). -/
def mackenzieSpec (T S D : ℚ) : ℚ :=
  1448.96 + 4.591 * T - 0.05304 * T ^ 2 + 0.0002374 * T ^ 3
    + 1.340 * (S - 35) + 0.0163 * D + 1.675e-7 * D ^ 2
    - 0.01025 * T * (S - 35) - 7.139e-13 * T * D ^ 3

/-- 8-bit XOR of the code points of a payload, as the spec words it. -/
def checksum8Spec (payload : List Char) : Nat :=
  (payload.foldl (fun a c => a ^^^ c.toNat) 0) % 256

/-- Two uppercase hexadecimal digits. -/
def twoHexUpper (n : Nat) : String :=
  String.mk [hexDigitU (n / 16 % 16), hexDigitU (n % 16)]

/-- Number of reads of the follow-up loop that would come back empty. -/
def countEmptyTrim (l : List String) : Nat :=
  l.countP (fun x => trimS x == "")

/-- The non-empty stripped lines, in order: what the loop collects. -/
def collectNonEmpty (l : List String) : List String :=
  (l.map trimS).filter (fun y => y != "")

/-! ## Helper lemmas about the follow-up loop -/

lemma startsP3_ne_empty {y : String} (h : strStartsWith y "$PUWV3" = true) :
    y ≠ "" := by
  intro he
  subst he
  exact absurd h (by decide)

/-- With nothing left to read, the loop spends its remaining empty-read
budget and returns the collected responses unchanged. -/
lemma followup_nil (tc : Nat) (acc : List String) (s : MState) (full : String)
    (now vt : ℚ) :
    followup [] tc acc s full now vt = .ok (acc, s, []) := by
  by_cases h : 5 ≤ tc
  · rw [followup.eq_def]; simp [h]
  · rw [followup.eq_def]; simp [h]
    exact followup_nil (tc + 1) acc s full now vt
termination_by 5 - tc
decreasing_by omega

lemma countEmptyTrim_cons (x : String) (l : List String) :
    countEmptyTrim (x :: l) = (if trimS x = "" then 1 else 0) + countEmptyTrim l := by
  simp [countEmptyTrim, List.countP_cons]
  by_cases h : trimS x = "" <;> simp [h] <;> omega

lemma collectNonEmpty_cons (x : String) (l : List String) :
    collectNonEmpty (x :: l)
      = (if trimS x = "" then [] else [trimS x]) ++ collectNonEmpty l := by
  by_cases h : trimS x = "" <;> simp [collectNonEmpty, h]

/-- The loop walks past a prefix that holds no $PUWV3 line, collecting the
non-empty lines, as long as the empty reads stay within budget. -/
lemma followup_append (pre rest : List String) (tc : Nat) (acc : List String)
    (s : MState) (full : String) (now vt : ℚ)
    (hpre : ∀ x ∈ pre, strStartsWith (trimS x) "$PUWV3" = false)
    (hbud : tc + countEmptyTrim pre ≤ 4) :
    followup (pre ++ rest) tc acc s full now vt
      = followup rest (tc + countEmptyTrim pre) (acc ++ collectNonEmpty pre)
          s full now vt := by
  induction pre generalizing tc acc with
  | nil => simp [countEmptyTrim, collectNonEmpty]
  | cons x pre ih =>
    have hx := hpre x (by simp)
    have hpre' : ∀ y ∈ pre, strStartsWith (trimS y) "$PUWV3" = false :=
      fun y hy => hpre y (by simp [hy])
    rw [countEmptyTrim_cons] at hbud ⊢
    rw [collectNonEmpty_cons]
    have h5 : ¬ 5 ≤ tc := by omega
    by_cases he : trimS x = ""
    · rw [List.cons_append, followup.eq_def]
      simp only [h5, if_false, he, if_true, ite_true, ite_false, if_neg, if_pos]
      rw [ih (tc + 1) acc hpre' (by simp [he] at hbud ⊢; omega)]
      simp [he]
      congr 1
      omega
    · rw [List.cons_append, followup.eq_def]
      simp only [h5, ite_false, if_neg, not_false_iff]
      simp only [he, ite_false, if_neg, not_false_iff, hx]
      rw [ih tc (acc ++ [trimS x]) hpre' (by simp [he] at hbud ⊢; omega)]
      simp [he]

/-- A non-empty $PUWV3 line at the head of the stream is collected and
processed, and the loop stops: the rest of the stream is returned unread. -/
lemma followup_cons_p3 (l : String) (post : List String) (tc : Nat)
    (acc : List String) (s : MState) (full : String) (now vt : ℚ)
    (htc : tc < 5) (hp3 : strStartsWith (trimS l) "$PUWV3" = true) :
    followup (l :: post) tc acc s full now vt
      = (processPuwv3 (trimS l) full (acc ++ [trimS l]) s now vt).map
          (fun p => (p.1, p.2, post)) := by
  have hne : trimS l ≠ "" := startsP3_ne_empty hp3
  have h5 : ¬ 5 ≤ tc := by omega
  rw [followup.eq_def]
  simp [h5, hne, hp3]

/-- When no $PUWV3 line ever arrives, the loop returns normally with the
collected non-empty lines, the state untouched, after at most 5 reads that
came back empty. -/
lemma followup_no_p3 (input : List String) (tc : Nat) (acc : List String)
    (s : MState) (full : String) (now vt : ℚ) (htc : tc ≤ 5)
    (hin : ∀ x ∈ input, strStartsWith (trimS x) "$PUWV3" = false) :
    ∃ k, followup input tc acc s full now vt
        = .ok (acc ++ collectNonEmpty (input.take k), s, input.drop k)
      ∧ tc + countEmptyTrim (input.take k) ≤ 5 := by
  by_cases h5 : 5 ≤ tc
  · refine ⟨0, ?_, ?_⟩
    · rw [followup.eq_def]
      simp [h5, collectNonEmpty, countEmptyTrim]
    · simpa [countEmptyTrim] using htc
  · match input with
    | [] =>
      refine ⟨0, ?_, ?_⟩
      · rw [followup.eq_def]
        simp [h5, collectNonEmpty, countEmptyTrim, followup_nil]
      · simpa [countEmptyTrim] using htc
    | x :: rest =>
      have hx := hin x (by simp)
      have hin' : ∀ y ∈ rest, strStartsWith (trimS y) "$PUWV3" = false :=
        fun y hy => hin y (by simp [hy])
      by_cases he : trimS x = ""
      · obtain ⟨k, hk, hb⟩ :=
          followup_no_p3 rest (tc + 1) acc s full now vt (by omega) hin'
        refine ⟨k + 1, ?_, ?_⟩
        · rw [followup.eq_def]
          simp only [h5, ite_false, if_neg, not_false_iff, he, if_pos]
          rw [hk]
          simp [collectNonEmpty_cons, he]
        · rw [List.take_succ_cons, countEmptyTrim_cons]
          simp [he]
          omega
      · obtain ⟨k, hk, hb⟩ :=
          followup_no_p3 rest tc (acc ++ [trimS x]) s full now vt (by omega) hin'
        refine ⟨k + 1, ?_, ?_⟩
        · rw [followup.eq_def]
          simp only [h5, ite_false, if_neg, not_false_iff, he, hx]
          simp only [if_neg he, Bool.false_eq_true, if_false]
          rw [hk]
          simp [collectNonEmpty_cons, he]
        · rw [List.take_succ_cons, countEmptyTrim_cons]
          simp [he]
          omega
termination_by input.length + (5 - tc)
decreasing_by all_goals simp [List.length_cons] <;> omega

/-! ## Helper lemmas about send_command -/

lemma send_command_closed (s : MState) (command : String)
    (wr wp : Bool) (input : List String) (now vt : ℚ)
    (h : s.ser ≠ some true) :
    send_command s command wr wp input now vt = .ok (none, [], s, input) := by
  rw [send_command]
  simp [h]

/-- A remote command with follow-up waiting reduces to the follow-up loop
over the stream after the primary read. -/
lemma send_command_followup (s : MState) (cmd p : String) (rest : List String)
    (now vt : ℚ) (hser : s.ser = some true)
    (hcmd : strStartsWith cmd "$PUWV2" = true) :
    send_command s cmd true true (p :: rest) now vt
      = (followup rest 0 []
            (if trimS p = ""
              then { s with written := s.written ++ [format_command cmd true ++ "\n"] }
              else log_communication
                { s with written := s.written ++ [format_command cmd true ++ "\n"] }
                (some (format_command cmd true)) (some (trimS p)) now)
            (format_command cmd true) now vt).map
          (fun r => ((if trimS p = "" then none else some (trimS p)),
            r.1, r.2.1, r.2.2)) := by
  rw [send_command]
  simp [hser, hcmd, readLine]

/-! ## Helper lemmas about processPuwv3 -/

lemma processPuwv3_parse_none (line full : String) (acc : List String)
    (s : MState) (now vt : ℚ) (hp : parse_puwv3 line = none) :
    processPuwv3 line full acc s now vt
      = .ok (acc, log_communication s none (some line) now) := by
  rw [processPuwv3, hp]

lemma processPuwv3_not_temp (line full : String) (acc : List String)
    (s : MState) (now vt : ℚ) (p : Puwv3Record)
    (hp : parse_puwv3 line = some p) (h : ¬(p.cmd_id = "3" ∧ p.value ≠ "")) :
    processPuwv3 line full acc s now vt
      = .ok (acc, log_communication s none (some line) now) := by
  rw [processPuwv3, hp]
  simp [h]

lemma processPuwv3_value_err (line full : String) (acc : List String)
    (s : MState) (now vt : ℚ) (p : Puwv3Record)
    (hp : parse_puwv3 line = some p) (h3 : p.cmd_id = "3") (hv : p.value ≠ "")
    (hf : parseFloat p.value = none) :
    processPuwv3 line full acc s now vt
      = .error (.valueError "value" p.value) := by
  rw [processPuwv3, hp]
  simp [h3, hv, hf]

lemma processPuwv3_prop_err (line full : String) (acc : List String)
    (s : MState) (now vt : ℚ) (p : Puwv3Record) (temp : ℚ)
    (hp : parse_puwv3 line = some p) (h3 : p.cmd_id = "3") (hv : p.value ≠ "")
    (ht : parseFloat p.value = some temp)
    (hf : parseFloat p.prop_time = none) :
    processPuwv3 line full acc s now vt
      = .error (.valueError "prop_time" p.prop_time) := by
  rw [processPuwv3, hp]
  simp [h3, hv, ht, hf]

lemma processPuwv3_sq_err (line full : String) (acc : List String)
    (s : MState) (now vt : ℚ) (p : Puwv3Record) (temp pt : ℚ)
    (hp : parse_puwv3 line = some p) (h3 : p.cmd_id = "3") (hv : p.value ≠ "")
    (ht : parseFloat p.value = some temp)
    (hpt : parseFloat p.prop_time = some pt)
    (hf : parseFloat p.signal_quality = none) :
    processPuwv3 line full acc s now vt
      = .error (.valueError "signal_quality" p.signal_quality) := by
  rw [processPuwv3, hp]
  simp [h3, hv, ht, hpt, hf]

lemma log_communication_salinity (s : MState) (c r : Option String) (t : ℚ) :
    (log_communication s c r t).salinity = s.salinity := rfl

lemma log_communication_metrics (s : MState) (c r : Option String) (t : ℚ) :
    (log_communication s c r t).metrics = s.metrics := rfl

lemma calculate_velocity_metrics (s : MState) (r t : ℚ) :
    ((calculate_velocity s r t).2).metrics = s.metrics := by
  rw [calculate_velocity]
  cases s.last_range <;> cases s.last_range_time <;> simp
  split <;> simp

lemma log_metrics_metrics (s : MState) (t0 : ℚ) (c rt ra ci : String)
    (pt sq v sr : ℚ) (hd : ℝ) (vel : ℚ) :
    (log_metrics s t0 c rt ra ci pt sq v sr hd vel).metrics
      = s.metrics
        ++ [{ timestamp := t0, command := c, response_type := rt,
              remote_addr := ra, cmd_id := ci, prop_time := pt,
              signal_quality := sq, value := v, slant_range := sr,
              horiz_dist := hd, velocity := vel }] := rfl

lemma primary_state_metrics (s : MState) (c : Prop) [Decidable c]
    (w : List String) (tx rx : Option String) (t : ℚ) :
    (if c then { s with written := w }
      else log_communication { s with written := w } tx rx t).metrics
      = s.metrics := by
  split <;> rfl

lemma primary_state_salinity (s : MState) (c : Prop) [Decidable c]
    (w : List String) (tx rx : Option String) (t : ℚ) :
    (if c then { s with written := w }
      else log_communication { s with written := w } tx rx t).salinity
      = s.salinity := by
  split <;> rfl

lemma processPuwv3_temp_ok (line full : String) (acc : List String)
    (s : MState) (now vt : ℚ) (p : Puwv3Record) (temp pt sq : ℚ)
    (hp : parse_puwv3 line = some p) (h3 : p.cmd_id = "3") (hv : p.value ≠ "")
    (ht : parseFloat p.value = some temp)
    (hpt : parseFloat p.prop_time = some pt)
    (hsq : parseFloat p.signal_quality = some sq) :
    processPuwv3 line full acc s now vt
      = .ok (acc,
          log_communication
            (log_metrics
              (calculate_velocity s
                (calculate_slant_range pt
                  (calculate_sound_velocity temp s.salinity DEFAULT_DEPTH)) vt).2
              now full "PUWV3" p.remote_addr p.cmd_id pt sq temp
              (calculate_slant_range pt
                (calculate_sound_velocity temp s.salinity DEFAULT_DEPTH))
              (calculate_horizontal_distance
                (calculate_slant_range pt
                  (calculate_sound_velocity temp s.salinity DEFAULT_DEPTH)) 0)
              (calculate_velocity s
                (calculate_slant_range pt
                  (calculate_sound_velocity temp s.salinity DEFAULT_DEPTH)) vt).1)
            none (some line) now) := by
  rw [processPuwv3, hp]
  simp [h3, hv, ht, hpt, hsq]

/-- The follow-up loop on a stream whose first $PUWV3 line is a well-formed
Temperature response with a numeric value: one MetricSample is appended. -/
lemma followup_temp_metrics (pre : List String) (l : String)
    (post : List String) (s1 : MState) (full : String) (now vt : ℚ)
    (p3 : Puwv3Record) (temp pt sq : ℚ)
    (hpre : ∀ x ∈ pre, strStartsWith (trimS x) "$PUWV3" = false)
    (hbud : countEmptyTrim pre ≤ 4)
    (hp3 : strStartsWith (trimS l) "$PUWV3" = true)
    (hp : parse_puwv3 (trimS l) = some p3)
    (h3 : p3.cmd_id = "3") (hv : p3.value ≠ "")
    (ht : parseFloat p3.value = some temp)
    (hpt : parseFloat p3.prop_time = some pt)
    (hsq : parseFloat p3.signal_quality = some sq) :
    ∃ a s2 vrow,
      followup (pre ++ l :: post) 0 [] s1 full now vt = .ok (a, s2, post)
      ∧ s2.metrics = s1.metrics
          ++ [{ timestamp := now, command := full, response_type := "PUWV3",
                remote_addr := p3.remote_addr, cmd_id := p3.cmd_id,
                prop_time := pt, signal_quality := sq, value := temp,
                slant_range := calculate_slant_range pt
                  (calculate_sound_velocity temp s1.salinity DEFAULT_DEPTH),
                horiz_dist := calculate_horizontal_distance
                  (calculate_slant_range pt
                    (calculate_sound_velocity temp s1.salinity DEFAULT_DEPTH)) 0,
                velocity := vrow }] := by
  rw [followup_append pre (l :: post) 0 [] s1 full now vt hpre (by omega)]
  rw [followup_cons_p3 l post _ _ s1 full now vt (by omega) hp3]
  rw [processPuwv3_temp_ok _ full _ s1 now vt p3 temp pt sq hp h3 hv ht hpt hsq]
  simp only [Except.map]
  refine ⟨_, _, (calculate_velocity s1
    (calculate_slant_range pt
      (calculate_sound_velocity temp s1.salinity DEFAULT_DEPTH)) vt).1, rfl, ?_⟩
  rw [log_communication_metrics, log_metrics_metrics, calculate_velocity_metrics]

/-- The follow-up loop on a stream whose first $PUWV3 line is not a
Temperature reading with a value: the line is logged, no MetricSample. -/
lemma followup_nontemp_metrics (pre : List String) (l : String)
    (post : List String) (s1 : MState) (full : String) (now vt : ℚ)
    (p3 : Puwv3Record)
    (hpre : ∀ x ∈ pre, strStartsWith (trimS x) "$PUWV3" = false)
    (hbud : countEmptyTrim pre ≤ 4)
    (hp3 : strStartsWith (trimS l) "$PUWV3" = true)
    (hp : parse_puwv3 (trimS l) = some p3)
    (h : ¬ (p3.cmd_id = "3" ∧ p3.value ≠ "")) :
    ∃ a s2,
      followup (pre ++ l :: post) 0 [] s1 full now vt = .ok (a, s2, post)
      ∧ s2.metrics = s1.metrics := by
  rw [followup_append pre (l :: post) 0 [] s1 full now vt hpre (by omega)]
  rw [followup_cons_p3 l post _ _ s1 full now vt (by omega) hp3]
  rw [processPuwv3_not_temp _ full _ s1 now vt p3 hp h]
  simp only [Except.map]
  exact ⟨_, _, rfl, log_communication_metrics _ _ _ _⟩

/-- The follow-up loop on a stream whose first $PUWV3 line does not parse
(too few fields): the raw line is still collected and logged, the loop
stops there, and no MetricSample is persisted. -/
lemma followup_malformed_metrics (pre : List String) (l : String)
    (post : List String) (s1 : MState) (full : String) (now vt : ℚ)
    (hpre : ∀ x ∈ pre, strStartsWith (trimS x) "$PUWV3" = false)
    (hbud : countEmptyTrim pre ≤ 4)
    (hp3 : strStartsWith (trimS l) "$PUWV3" = true)
    (hp : parse_puwv3 (trimS l) = none) :
    ∃ a s2,
      followup (pre ++ l :: post) 0 [] s1 full now vt = .ok (a, s2, post)
      ∧ s2.metrics = s1.metrics := by
  rw [followup_append pre (l :: post) 0 [] s1 full now vt hpre (by omega)]
  rw [followup_cons_p3 l post _ _ s1 full now vt (by omega) hp3]
  rw [processPuwv3_parse_none _ full _ s1 now vt hp]
  simp only [Except.map]
  exact ⟨_, _, rfl, log_communication_metrics _ _ _ _⟩

lemma followup_step_empty (x : String) (rest : List String) (tc : Nat)
    (acc : List String) (s : MState) (full : String) (now vt : ℚ)
    (h5 : ¬ 5 ≤ tc) (he : trimS x = "") :
    followup (x :: rest) tc acc s full now vt
      = followup rest (tc + 1) acc s full now vt := by
  rw [followup.eq_def]
  simp [h5, he]

lemma followup_step_noise (x : String) (rest : List String) (tc : Nat)
    (acc : List String) (s : MState) (full : String) (now vt : ℚ)
    (h5 : ¬ 5 ≤ tc) (he : trimS x ≠ "")
    (hx : strStartsWith (trimS x) "$PUWV3" = false) :
    followup (x :: rest) tc acc s full now vt
      = followup rest tc (acc ++ [trimS x]) s full now vt := by
  rw [followup.eq_def]
  simp [h5, he, hx]

/-- Complete characterisation of one run of the follow-up loop over an
arbitrary stream: some prefix free of $PUWV3 lines is consumed, and then
either the loop gives up normally (its empty-read budget exhausted, or the
stream drained) or it reaches a first $PUWV3 line within budget and hands
it to processPuwv3, with the rest of the stream unread. -/
lemma followup_run (input : List String) (tc : Nat) (acc : List String)
    (s : MState) (full : String) (now vt : ℚ) (htc : tc ≤ 5) :
    ∃ k,
      (∀ x ∈ input.take k, strStartsWith (trimS x) "$PUWV3" = false)
      ∧ ((followup input tc acc s full now vt
            = .ok (acc ++ collectNonEmpty (input.take k), s, input.drop k)
          ∧ tc + countEmptyTrim (input.take k) ≤ 5
          ∧ (tc + countEmptyTrim (input.take k) = 5 ∨ input.drop k = []))
        ∨ (∃ l post, input.drop k = l :: post
            ∧ strStartsWith (trimS l) "$PUWV3" = true
            ∧ tc + countEmptyTrim (input.take k) ≤ 4
            ∧ followup input tc acc s full now vt
                = (processPuwv3 (trimS l) full
                    (acc ++ collectNonEmpty (input.take k) ++ [trimS l])
                    s now vt).map (fun pr => (pr.1, pr.2, post)))) := by
  by_cases h5 : 5 ≤ tc
  · refine ⟨0, by simp, Or.inl ⟨?_, ?_, ?_⟩⟩
    · rw [followup.eq_def]
      simp [h5, collectNonEmpty]
    · simpa [countEmptyTrim] using htc
    · left
      simp only [List.take_zero, countEmptyTrim, List.countP_nil]
      omega
  · match input with
    | [] =>
      refine ⟨0, by simp, Or.inl ⟨?_, ?_, ?_⟩⟩
      · rw [followup.eq_def]
        simp [h5, collectNonEmpty, followup_nil]
      · simpa [countEmptyTrim] using htc
      · right
        simp
    | x :: rest =>
      by_cases he : trimS x = ""
      · obtain ⟨k, hpre, hbr⟩ :=
          followup_run rest (tc + 1) acc s full now vt (by omega)
        refine ⟨k + 1, ?_, ?_⟩
        · intro y hy
          rcases List.mem_cons.mp (by simpa using hy) with h | h
          · rw [h, he]
            decide
          · exact hpre y h
        · rw [List.take_succ_cons, List.drop_succ_cons,
            followup_step_empty x rest tc acc s full now vt h5 he,
            collectNonEmpty_cons, countEmptyTrim_cons]
          simp only [he, if_pos, ite_true, reduceIte, List.nil_append]
          rcases hbr with ⟨hok, hb, hm⟩ | ⟨l, post, hdrop, hp3, hb, heq⟩
          · refine Or.inl ⟨hok, by omega, ?_⟩
            rcases hm with hm | hm
            · exact Or.inl (by omega)
            · exact Or.inr hm
          · exact Or.inr ⟨l, post, hdrop, hp3, by omega, heq⟩
      · by_cases hx : strStartsWith (trimS x) "$PUWV3" = true
        · refine ⟨0, by simp, Or.inr ⟨x, rest, by simp, hx, ?_, ?_⟩⟩
          · simp only [List.take_zero, countEmptyTrim, List.countP_nil]
            omega
          · rw [followup_cons_p3 x rest tc acc s full now vt (by omega) hx]
            simp [collectNonEmpty]
        · have hx' : strStartsWith (trimS x) "$PUWV3" = false := by
            cases hxx : strStartsWith (trimS x) "$PUWV3"
            · rfl
            · exact absurd hxx hx
          obtain ⟨k, hpre, hbr⟩ :=
            followup_run rest tc (acc ++ [trimS x]) s full now vt htc
          refine ⟨k + 1, ?_, ?_⟩
          · intro y hy
            rcases List.mem_cons.mp (by simpa using hy) with h | h
            · rw [h]
              exact hx'
            · exact hpre y h
          · rw [List.take_succ_cons, List.drop_succ_cons,
              followup_step_noise x rest tc acc s full now vt h5 he hx',
              collectNonEmpty_cons, countEmptyTrim_cons]
            simp only [if_neg he, List.append_assoc,
              List.singleton_append, List.cons_append, List.nil_append]
            rcases hbr with ⟨hok, hb, hm⟩ | ⟨l, post, hdrop, hp3, hb, heq⟩
            · refine Or.inl ⟨?_, by omega, ?_⟩
              · rw [hok]
                simp
              · rcases hm with hm | hm
                · exact Or.inl (by omega)
                · exact Or.inr hm
            · refine Or.inr ⟨l, post, hdrop, hp3, by omega, ?_⟩
              rw [heq]
              simp
termination_by input.length + (5 - tc)
decreasing_by all_goals simp [List.length_cons] <;> omega

/-- A send exchange stops at the first $PUWV3 line of the follow-up: the
result does not depend on anything after it, and when the exchange
completes normally that suffix is returned unread. -/
lemma send_stops_at_p3 (s : MState) (cmd p l : String)
    (pre post : List String) (now vt : ℚ)
    (hser : s.ser = some true) (hcmd : strStartsWith cmd "$PUWV2" = true)
    (hpre : ∀ x ∈ pre, strStartsWith (trimS x) "$PUWV3" = false)
    (hbud : countEmptyTrim pre ≤ 4)
    (hp3 : strStartsWith (trimS l) "$PUWV3" = true) :
    Except.map (fun r => (r.1, r.2.1, r.2.2.1))
        (send_command s cmd true true (p :: (pre ++ l :: post)) now vt)
      = Except.map (fun r => (r.1, r.2.1, r.2.2.1))
          (send_command s cmd true true (p :: (pre ++ [l])) now vt)
    ∧ (∀ m a s2 rem,
        send_command s cmd true true (p :: (pre ++ l :: post)) now vt
          = .ok (m, a, s2, rem) → rem = post) := by
  constructor
  · rw [send_command_followup s cmd p _ now vt hser hcmd,
      send_command_followup s cmd p _ now vt hser hcmd]
    rw [followup_append pre (l :: post) 0 [] _ _ now vt hpre (by omega),
      followup_append pre [l] 0 [] _ _ now vt hpre (by omega)]
    rw [followup_cons_p3 l post _ _ _ _ now vt (by omega) hp3,
      followup_cons_p3 l [] _ _ _ _ now vt (by omega) hp3]
    cases hP : processPuwv3 (trimS l) (format_command cmd true)
        ([] ++ collectNonEmpty pre ++ [trimS l])
        (if trimS p = ""
          then { s with written := s.written ++ [format_command cmd true ++ "\n"] }
          else log_communication
            { s with written := s.written ++ [format_command cmd true ++ "\n"] }
            (some (format_command cmd true)) (some (trimS p)) now)
        now vt with
    | error e => simp [Except.map]
    | ok pr => simp [Except.map]
  · intro m a s2 rem h
    rw [send_command_followup s cmd p _ now vt hser hcmd] at h
    rw [followup_append pre (l :: post) 0 [] _ _ now vt hpre (by omega)] at h
    rw [followup_cons_p3 l post _ _ _ _ now vt (by omega) hp3] at h
    cases hP : processPuwv3 (trimS l) (format_command cmd true)
        ([] ++ collectNonEmpty pre ++ [trimS l])
        (if trimS p = ""
          then { s with written := s.written ++ [format_command cmd true ++ "\n"] }
          else log_communication
            { s with written := s.written ++ [format_command cmd true ++ "\n"] }
            (some (format_command cmd true)) (some (trimS p)) now)
        now vt with
    | error e => rw [hP] at h; simp [Except.map] at h
    | ok pr =>
      rw [hP] at h
      simp only [Except.map, Except.ok.injEq, Prod.mk.injEq] at h
      exact h.2.2.2.symm

/-! ## Support lemmas for the checksum claim -/

lemma nmeaXor_lt (l : List Char) (h : ∀ c ∈ l, c.toNat < 128) :
    ∀ a, a < 256 → l.foldl (fun x c => x ^^^ c.toNat) a < 256 := by
  induction l with
  | nil => intro a ha; simpa using ha
  | cons c l ih =>
    intro a ha
    apply ih (fun d hd => h d (by simp [hd]))
    have h1 : a < 2 ^ 8 := ha
    have h2 : c.toNat < 2 ^ 8 := lt_trans (h c (by simp)) (by norm_num)
    exact Nat.xor_lt_two_pow h1 h2

set_option maxRecDepth 4000 in
lemma format02X_two_hex : ∀ n, n < 256 → format02X n = twoHexUpper n := by decide

lemma takeWhile_no_star (l : List Char) (h : '*' ∉ l) :
    l.takeWhile (fun c => c != '*') = l := by
  induction l with
  | nil => rfl
  | cons c l ih =>
    have hc : c ≠ '*' := fun he => h (by simp [he])
    have hl : '*' ∉ l := fun hm => h (by simp [hm])
    simp [List.takeWhile_cons, hc, ih hl]

/-! ## The claims -/

unseal Rat.mul Rat.add Rat.inv Rat.ofScientific in
/-- C1, counterexample: decoding a well-formed DeviceInfo sentence is not
free of side effects on the ambient salinity: starting from the default
salinity 0, parse_puwv_bang of a sentence carrying salinity 12.5 leaves
the monitor salinity at 12.5 while still returning the parsed record. -/
theorem c1_counterexample :
    ((parse_puwv_bang "$PUWV!,SN,sys,1.0,core,2.0,9600,1,2,4,12.5,1,1"
        { ser := some true, salinity := DEFAULT_SALINITY, last_range := none,
          last_range_time := none, written := [], log := [],
          metrics := [] }).2).salinity = 12.5
  ∧ DEFAULT_SALINITY = 0
  ∧ ((parse_puwv_bang "$PUWV!,SN,sys,1.0,core,2.0,9600,1,2,4,12.5,1,1"
        { ser := some true, salinity := DEFAULT_SALINITY, last_range := none,
          last_range_time := none, written := [], log := [],
          metrics := [] }).1).isSome = true := by
  refine ⟨by decide, by decide, by decide⟩

/-- C1, amended: decoding a DeviceInfo sentence returns the parsed record
and, as a side effect of decode itself, stores the carried salinity value
(converted to a number) into the monitor ambient salinity state; when the
parse fails the state is unchanged. No separate caller action is involved. -/
theorem c1_decode_applies_salinity :
    (∀ (response : String) (s : MState) (rec : DeviceInfoRecord) (s2 : MState),
        parse_puwv_bang response s = (some rec, s2) →
        ∃ v, parseFloat rec.salinity = some v ∧ s2 = { s with salinity := v })
  ∧ (∀ (response : String) (s : MState) (s2 : MState),
        parse_puwv_bang response s = (none, s2) → s2 = s) := by
  constructor
  · intro response s rec s2 h
    rw [parse_puwv_bang] at h
    by_cases hl : (splitFields response).length < 13
    · simp [hl] at h
    · simp only [hl, if_false, ite_false, if_neg, not_false_iff] at h
      cases hv : parseFloat ((splitFields response).getD 10 "") with
      | none => rw [hv] at h; simp at h
      | some v =>
        rw [hv] at h
        simp only [Prod.mk.injEq, Option.some.injEq] at h
        obtain ⟨h1, h2⟩ := h
        refine ⟨v, ?_, h2.symm⟩
        rw [← h1]
        exact hv
  · intro response s s2 h
    rw [parse_puwv_bang] at h
    by_cases hl : (splitFields response).length < 13
    · simp [hl] at h
      exact h.symm
    · simp only [hl, if_false, ite_false, if_neg, not_false_iff] at h
      cases hv : parseFloat ((splitFields response).getD 10 "") with
      | none => rw [hv] at h; simp at h; exact h.symm
      | some v => rw [hv] at h; simp at h

unseal Rat.mul Rat.add Rat.inv Rat.ofScientific in
/-- C1, witness for the amended theorem at a concrete DeviceInfo line. -/
theorem c1_witness :
    ∃ v, parseFloat "1" = some v
      ∧ ({ ser := none, salinity := 1, last_range := none, last_range_time := none,
           written := [], log := [], metrics := [] } : MState)
        = { ser := none, salinity := v, last_range := none, last_range_time := none,
            written := [], log := [], metrics := [] } :=
  c1_decode_applies_salinity.1 "$PUWV!,,,,,,,,,,1,,"
    { ser := none, salinity := 0, last_range := none, last_range_time := none,
      written := [], log := [], metrics := [] }
    { cmd_type := "$PUWV", serial_number := "", system_moniker := "",
      system_version := "", core_moniker := "", core_version := "",
      baudrate := "", rx_channel := "", tx_channel := "", max_channels := "",
      salinity := "1", has_pts := "", cmd_mode := "" }
    { ser := none, salinity := 1, last_range := none, last_range_time := none,
      written := [], log := [], metrics := [] }
    rfl

/-- C2, counterexample: a RemoteResponse line with exactly 5 comma
separated fields, fewer than the 6 the claim requires, does not decode to
a Malformed outcome (None); it decodes to a record whose value and azimuth
fields are silently empty. -/
theorem c2_counterexample :
    (splitFields "$PUWV3,0,3,0.01,50").length = 5
  ∧ parse_puwv3 "$PUWV3,0,3,0.01,50"
      = some { cmd_type := "$PUWV", remote_addr := "0", cmd_id := "3",
               prop_time := "0.01", signal_quality := "50",
               value := "", azimuth := "" } :=
  ⟨by decide, by decide⟩

/-- C2, amended: the decoder requires only 5 fields, not 6. A
RemoteResponse line with fewer than 5 fields decodes to None (the
Malformed outcome, never a thrown error, since the decoder is total);
with exactly 5 fields it returns a record whose value and azimuth are
empty strings. -/
theorem c2_min_fields (response : String) :
    ((splitFields response).length < 5 → parse_puwv3 response = none)
  ∧ ((splitFields response).length = 5 →
      ∃ r, parse_puwv3 response = some r ∧ r.value = "" ∧ r.azimuth = "") := by
  constructor
  · intro h
    rw [parse_puwv3]
    simp [h]
  · intro h
    have h5 : ¬ (splitFields response).length < 5 := by omega
    refine ⟨{ cmd_type := takeStr ((splitFields response).getD 0 "") 5,
              remote_addr := (splitFields response).getD 1 "",
              cmd_id := (splitFields response).getD 2 "",
              prop_time := (splitFields response).getD 3 "",
              signal_quality := (splitFields response).getD 4 "",
              value := (splitFields response).getD 5 "",
              azimuth := (splitFields response).getD 6 "" }, ?_, ?_, ?_⟩
    · rw [parse_puwv3]
      simp only [h5, if_false, ite_false, if_neg, not_false_iff]
    · exact List.getD_eq_default _ _ (by omega)
    · exact List.getD_eq_default _ _ (by omega)

/-- C2, witness: a 3-field line decodes to None; a 5-field line decodes to
a record with empty value and azimuth. -/
theorem c2_witness :
    parse_puwv3 "$PUWV3,0,3" = none
  ∧ ∃ r, parse_puwv3 "$PUWV3,1,0,0.02,40" = some r
      ∧ r.value = "" ∧ r.azimuth = "" :=
  ⟨(c2_min_fields "$PUWV3,0,3").1 (by decide),
   (c2_min_fields "$PUWV3,1,0,0.02,40").2 (by decide)⟩

/-- C3, counterexample: a remote temperature response whose value field is
not numeric makes the whole send exchange abort with an uncaught
ValueError; the raw sentence is not returned. -/
theorem c3_counterexample :
    send_command
      { ser := some true, salinity := 0, last_range := none,
        last_range_time := none, written := [], log := [], metrics := [] }
      "$PUWV2,0,0,3" true true ["", "$PUWV3,2,3,0.25,60,abc"] 0 0
      = .error (.valueError "value" "abc") := by
  rw [send_command_followup _ _ _ _ _ _ rfl (by decide)]
  rw [show (["$PUWV3,2,3,0.25,60,abc"] : List String)
      = "$PUWV3,2,3,0.25,60,abc" :: [] from rfl]
  rw [followup_cons_p3 _ _ _ _ _ _ _ _ (by omega) (by decide)]
  rw [processPuwv3_value_err _ _ _ _ _ _
    { cmd_type := "$PUWV", remote_addr := "2", cmd_id := "3",
      prop_time := "0.25", signal_quality := "60", value := "abc",
      azimuth := "" }
    (by decide) (by decide) (by decide) (by decide)]
  rfl

/-- C3, amended: when the value, propagation-time or signal-quality field
of a Temperature-tagged remote response fails to convert to a number, the
conversion raises a ValueError naming that field which escapes
send_command: the exchange is aborted and the sentence is not returned. -/
theorem c3_value_error_aborts :
    (∀ (s : MState) (cmd p l : String) (pre post : List String) (now vt : ℚ)
        (p3 : Puwv3Record),
      s.ser = some true → strStartsWith cmd "$PUWV2" = true →
      (∀ x ∈ pre, strStartsWith (trimS x) "$PUWV3" = false) →
      countEmptyTrim pre ≤ 4 →
      strStartsWith (trimS l) "$PUWV3" = true →
      parse_puwv3 (trimS l) = some p3 →
      p3.cmd_id = "3" → p3.value ≠ "" →
      parseFloat p3.value = none →
      send_command s cmd true true (p :: (pre ++ l :: post)) now vt
        = .error (.valueError "value" p3.value))
  ∧ (∀ (s : MState) (cmd p l : String) (pre post : List String) (now vt : ℚ)
        (p3 : Puwv3Record) (temp : ℚ),
      s.ser = some true → strStartsWith cmd "$PUWV2" = true →
      (∀ x ∈ pre, strStartsWith (trimS x) "$PUWV3" = false) →
      countEmptyTrim pre ≤ 4 →
      strStartsWith (trimS l) "$PUWV3" = true →
      parse_puwv3 (trimS l) = some p3 →
      p3.cmd_id = "3" → p3.value ≠ "" →
      parseFloat p3.value = some temp →
      parseFloat p3.prop_time = none →
      send_command s cmd true true (p :: (pre ++ l :: post)) now vt
        = .error (.valueError "prop_time" p3.prop_time))
  ∧ (∀ (s : MState) (cmd p l : String) (pre post : List String) (now vt : ℚ)
        (p3 : Puwv3Record) (temp pt : ℚ),
      s.ser = some true → strStartsWith cmd "$PUWV2" = true →
      (∀ x ∈ pre, strStartsWith (trimS x) "$PUWV3" = false) →
      countEmptyTrim pre ≤ 4 →
      strStartsWith (trimS l) "$PUWV3" = true →
      parse_puwv3 (trimS l) = some p3 →
      p3.cmd_id = "3" → p3.value ≠ "" →
      parseFloat p3.value = some temp →
      parseFloat p3.prop_time = some pt →
      parseFloat p3.signal_quality = none →
      send_command s cmd true true (p :: (pre ++ l :: post)) now vt
        = .error (.valueError "signal_quality" p3.signal_quality)) := by
  refine ⟨?_, ?_, ?_⟩
  · intro s cmd p l pre post now vt p3 hser hcmd hpre hbud hp3 hp h3 hv hf
    rw [send_command_followup s cmd p _ now vt hser hcmd]
    rw [followup_append pre (l :: post) 0 [] _ _ now vt hpre (by omega)]
    rw [followup_cons_p3 l post _ _ _ _ now vt (by omega) hp3]
    rw [processPuwv3_value_err _ _ _ _ _ _ p3 hp h3 hv hf]
    rfl
  · intro s cmd p l pre post now vt p3 temp hser hcmd hpre hbud hp3 hp h3 hv
      ht hf
    rw [send_command_followup s cmd p _ now vt hser hcmd]
    rw [followup_append pre (l :: post) 0 [] _ _ now vt hpre (by omega)]
    rw [followup_cons_p3 l post _ _ _ _ now vt (by omega) hp3]
    rw [processPuwv3_prop_err _ _ _ _ _ _ p3 temp hp h3 hv ht hf]
    rfl
  · intro s cmd p l pre post now vt p3 temp pt hser hcmd hpre hbud hp3 hp h3
      hv ht hpt hf
    rw [send_command_followup s cmd p _ now vt hser hcmd]
    rw [followup_append pre (l :: post) 0 [] _ _ now vt hpre (by omega)]
    rw [followup_cons_p3 l post _ _ _ _ now vt (by omega) hp3]
    rw [processPuwv3_sq_err _ _ _ _ _ _ p3 temp pt hp h3 hv ht hpt hf]
    rfl

/-- C3, witness for the amended theorem at a concrete exchange. -/
theorem c3_witness :
    send_command
      { ser := some true, salinity := 0, last_range := none,
        last_range_time := none, written := [], log := [], metrics := [] }
      "$PUWV2,1,0,3" true true ("" :: ([] ++ "$PUWV3,2,3,0.25,60,bad" :: [])) 0 0
      = .error (.valueError "value" "bad") :=
  c3_value_error_aborts.1
    { ser := some true, salinity := 0, last_range := none,
      last_range_time := none, written := [], log := [], metrics := [] }
    "$PUWV2,1,0,3" "" "$PUWV3,2,3,0.25,60,bad" [] [] 0 0
    { cmd_type := "$PUWV", remote_addr := "2", cmd_id := "3",
      prop_time := "0.25", signal_quality := "60", value := "bad",
      azimuth := "" }
    rfl (by decide) (by simp) (by decide) (by decide) (by decide) (by decide)
    (by decide) (by decide)

/-- C4: format_command leaves the text unchanged when checksum inclusion
is disabled or a checksum delimiter is already present; otherwise it
appends a star and two uppercase hexadecimal digits equal to the 8-bit XOR
of the code points of the payload (the characters after the optional
leading dollar sentinel); in particular payload PUWV?,0 has checksum 27. -/
theorem c4_format_command (cmd : String)
    (hascii : ∀ c ∈ cmd.data, c.toNat < 128) :
    format_command cmd false = cmd
  ∧ (cmd.data.contains '*' = true → format_command cmd true = cmd)
  ∧ (cmd.data.contains '*' = false →
      format_command cmd true
          = cmd ++ "*"
            ++ twoHexUpper (checksum8Spec (cmd.data.dropWhile (fun c => c = '$')))
      ∧ (twoHexUpper
          (checksum8Spec (cmd.data.dropWhile (fun c => c = '$')))).length = 2)
  ∧ calculate_nmea_checksum "PUWV?,0" = "27"
  ∧ format_command "$PUWV?,0" true = "$PUWV?,0*27" := by
  refine ⟨?_, ?_, ?_, by decide, by decide⟩
  · rw [format_command]
    simp
  · intro h
    rw [format_command]
    simp only [Bool.not_true, Bool.false_or, h, if_true, ite_true]
  · intro h
    have hmem : '*' ∉ cmd.data := by simpa using h
    have hsub : ∀ c ∈ cmd.data.dropWhile (fun c => c = '$'), c.toNat < 128 :=
      fun c hc => hascii c ((List.dropWhile_sublist _).subset hc)
    have hstar : '*' ∉ cmd.data.dropWhile (fun c => c = '$') :=
      fun hm => hmem ((List.dropWhile_sublist _).subset hm)
    have hlt : (cmd.data.dropWhile (fun c => c = '$')).foldl
        (fun a c => a ^^^ c.toNat) 0 < 256 := nmeaXor_lt _ hsub 0 (by norm_num)
    constructor
    · rw [format_command]
      simp only [h, Bool.not_true, Bool.false_or, Bool.or_false, if_false,
        Bool.not_false, Bool.true_or, if_neg, ite_false]
      rw [calculate_nmea_checksum]
      rw [takeWhile_no_star _ hstar]
      rw [checksum8Spec, Nat.mod_eq_of_lt hlt]
      rw [format02X_two_hex _ hlt]
      simp
    · rw [twoHexUpper]
      rfl

/-- C4, witness at a concrete command without a delimiter. -/
theorem c4_witness :
    format_command "$PUWV2,0,0,0" true
      = "$PUWV2,0,0,0" ++ "*"
        ++ twoHexUpper
            (checksum8Spec ("$PUWV2,0,0,0".data.dropWhile (fun c => c = '$'))) :=
  ((c4_format_command "$PUWV2,0,0,0" (by decide)).2.2.1 (by decide)).1

/-- C5: the stateful velocity operation seeds an empty history and returns
0; with elapsed time not positive it returns 0 and leaves the stored
history unchanged; with positive elapsed time it returns the range
difference over the elapsed time and replaces the history; in particular
velocity(100, t0) = 0 and then velocity(102, t0 + 1) = 2. -/
theorem c5_velocity_state :
    (∀ (s : MState) (r t : ℚ), (s.last_range = none ∨ s.last_range_time = none) →
      calculate_velocity s r t
        = (0, { s with last_range := some r, last_range_time := some t }))
  ∧ (∀ (s : MState) (lr lt r t : ℚ), s.last_range = some lr →
      s.last_range_time = some lt → t - lt ≤ 0 →
      calculate_velocity s r t = (0, s))
  ∧ (∀ (s : MState) (lr lt r t : ℚ), s.last_range = some lr →
      s.last_range_time = some lt → 0 < t - lt →
      calculate_velocity s r t
        = ((r - lr) / (t - lt),
            { s with last_range := some r, last_range_time := some t }))
  ∧ (∀ (s : MState) (t0 : ℚ), s.last_range = none →
      (calculate_velocity s 100 t0).1 = 0
      ∧ (calculate_velocity (calculate_velocity s 100 t0).2 102 (t0 + 1)).1 = 2) := by
  refine ⟨?_, ?_, ?_, ?_⟩
  · intro s r t h
    rcases h with h | h
    · simp [calculate_velocity, h]
    · cases hlr : s.last_range <;> simp [calculate_velocity, hlr, h]
  · intro s lr lt r t hlr hlt hd
    simp [calculate_velocity, hlr, hlt, hd]
  · intro s lr lt r t hlr hlt hd
    have : ¬ (t - lt ≤ 0) := by linarith
    simp [calculate_velocity, hlr, hlt, this]
  · intro s t0 h
    cases hlt : s.last_range_time <;>
      simp [calculate_velocity, h, hlt] <;> norm_num

/-- C5, witness: the two-call scenario at a concrete start state. -/
theorem c5_witness :
    (calculate_velocity
        { ser := none, salinity := 0, last_range := none, last_range_time := none,
          written := [], log := [], metrics := [] } 100 0).1 = 0
  ∧ (calculate_velocity
      (calculate_velocity
        { ser := none, salinity := 0, last_range := none, last_range_time := none,
          written := [], log := [], metrics := [] } 100 0).2 102 (0 + 1)).1 = 2 :=
  c5_velocity_state.2.2.2
    { ser := none, salinity := 0, last_range := none, last_range_time := none,
      written := [], log := [], metrics := [] } 0 rfl

/-- C6, counterexample to the claim as stated: a RemoteResponse with
command id Temperature and the non-empty value field "oops" does not get a
MetricSample persisted; the exchange aborts with a ValueError instead, so
the biconditional between carrying id 3 with a non-empty value and
persisting a sample fails. -/
theorem c6_counterexample :
    send_command
      { ser := some true, salinity := 0, last_range := none,
        last_range_time := none, written := [], log := [], metrics := [] }
      "$PUWV2,0,0,3" true true ["OK", "$PUWV3,1,3,0.5,50,oops"] 0 0
      = .error (.valueError "value" "oops") := by
  rw [send_command_followup _ _ _ _ _ _ rfl (by decide)]
  rw [show (["$PUWV3,1,3,0.5,50,oops"] : List String)
      = "$PUWV3,1,3,0.5,50,oops" :: [] from rfl]
  rw [followup_cons_p3 _ _ _ _ _ _ _ _ (by omega) (by decide)]
  rw [processPuwv3_value_err _ _ _ _ _ _
    { cmd_type := "$PUWV", remote_addr := "1", cmd_id := "3",
      prop_time := "0.5", signal_quality := "50", value := "oops",
      azimuth := "" }
    (by decide) (by decide) (by decide) (by decide)]
  rfl

/-- C6, amended: during a send exchange a MetricSample is persisted exactly
when the first decoded RemoteResponse of the follow-up carries command id
Temperature (3) with a non-empty value whose numeric fields convert; then
exactly one row is appended. A response with id Ping (0), Depth (2) or
Battery (4) never produces a MetricSample, and neither does any other
first response that misses the condition: an exchange with no
RemoteResponse, a first response with any other command id or an empty
value, or a malformed first $PUWV3 line. The last conjunct settles the
only-if direction for every completed exchange: whenever the metrics file
changed at all, the first response carried id 3 with a non-empty value
whose numeric fields convert, and exactly one row was appended. -/
theorem c6_temperature_metrics :
    (∀ (s : MState) (cmd p l : String) (pre post : List String) (now vt : ℚ)
        (p3 : Puwv3Record) (temp pt sq : ℚ),
      s.ser = some true → strStartsWith cmd "$PUWV2" = true →
      (∀ x ∈ pre, strStartsWith (trimS x) "$PUWV3" = false) →
      countEmptyTrim pre ≤ 4 →
      strStartsWith (trimS l) "$PUWV3" = true →
      parse_puwv3 (trimS l) = some p3 →
      p3.cmd_id = "3" → p3.value ≠ "" →
      parseFloat p3.value = some temp →
      parseFloat p3.prop_time = some pt →
      parseFloat p3.signal_quality = some sq →
      ∃ m a s2 vrow,
        send_command s cmd true true (p :: (pre ++ l :: post)) now vt
          = .ok (m, a, s2, post)
        ∧ s2.metrics = s.metrics
            ++ [{ timestamp := now, command := format_command cmd true,
                  response_type := "PUWV3", remote_addr := p3.remote_addr,
                  cmd_id := p3.cmd_id, prop_time := pt, signal_quality := sq,
                  value := temp,
                  slant_range := calculate_slant_range pt
                    (calculate_sound_velocity temp s.salinity DEFAULT_DEPTH),
                  horiz_dist := calculate_horizontal_distance
                    (calculate_slant_range pt
                      (calculate_sound_velocity temp s.salinity DEFAULT_DEPTH)) 0,
                  velocity := vrow }])
  ∧ (∀ (s : MState) (cmd p l : String) (pre post : List String) (now vt : ℚ)
        (p3 : Puwv3Record),
      s.ser = some true → strStartsWith cmd "$PUWV2" = true →
      (∀ x ∈ pre, strStartsWith (trimS x) "$PUWV3" = false) →
      countEmptyTrim pre ≤ 4 →
      strStartsWith (trimS l) "$PUWV3" = true →
      parse_puwv3 (trimS l) = some p3 →
      (p3.cmd_id = "0" ∨ p3.cmd_id = "2" ∨ p3.cmd_id = "4") →
      ∃ m a s2,
        send_command s cmd true true (p :: (pre ++ l :: post)) now vt
          = .ok (m, a, s2, post)
        ∧ s2.metrics = s.metrics)
  ∧ (∀ (s : MState) (cmd p : String) (rest : List String) (now vt : ℚ),
      s.ser = some true → strStartsWith cmd "$PUWV2" = true →
      (∀ x ∈ rest, strStartsWith (trimS x) "$PUWV3" = false) →
      ∃ m a s2 rem,
        send_command s cmd true true (p :: rest) now vt
          = .ok (m, a, s2, rem)
        ∧ s2.metrics = s.metrics)
  ∧ (∀ (s : MState) (cmd p l : String) (pre post : List String) (now vt : ℚ)
        (p3 : Puwv3Record),
      s.ser = some true → strStartsWith cmd "$PUWV2" = true →
      (∀ x ∈ pre, strStartsWith (trimS x) "$PUWV3" = false) →
      countEmptyTrim pre ≤ 4 →
      strStartsWith (trimS l) "$PUWV3" = true →
      parse_puwv3 (trimS l) = some p3 →
      ¬ (p3.cmd_id = "3" ∧ p3.value ≠ "") →
      ∃ m a s2,
        send_command s cmd true true (p :: (pre ++ l :: post)) now vt
          = .ok (m, a, s2, post)
        ∧ s2.metrics = s.metrics)
  ∧ (∀ (s : MState) (cmd p l : String) (pre post : List String) (now vt : ℚ),
      s.ser = some true → strStartsWith cmd "$PUWV2" = true →
      (∀ x ∈ pre, strStartsWith (trimS x) "$PUWV3" = false) →
      countEmptyTrim pre ≤ 4 →
      strStartsWith (trimS l) "$PUWV3" = true →
      parse_puwv3 (trimS l) = none →
      ∃ m a s2,
        send_command s cmd true true (p :: (pre ++ l :: post)) now vt
          = .ok (m, a, s2, post)
        ∧ s2.metrics = s.metrics)
  ∧ (∀ (s : MState) (cmd p : String) (rest : List String) (now vt : ℚ)
        (m : Option String) (a : List String) (s2 : MState) (rem : List String),
      s.ser = some true → strStartsWith cmd "$PUWV2" = true →
      send_command s cmd true true (p :: rest) now vt = .ok (m, a, s2, rem) →
      s2.metrics = s.metrics
      ∨ ∃ (p3 : Puwv3Record) (temp pt sq : ℚ),
          p3.cmd_id = "3" ∧ p3.value ≠ ""
          ∧ parseFloat p3.value = some temp
          ∧ parseFloat p3.prop_time = some pt
          ∧ parseFloat p3.signal_quality = some sq
          ∧ ∃ vrow, s2.metrics = s.metrics
              ++ [{ timestamp := now, command := format_command cmd true,
                    response_type := "PUWV3", remote_addr := p3.remote_addr,
                    cmd_id := p3.cmd_id, prop_time := pt, signal_quality := sq,
                    value := temp,
                    slant_range := calculate_slant_range pt
                      (calculate_sound_velocity temp s.salinity DEFAULT_DEPTH),
                    horiz_dist := calculate_horizontal_distance
                      (calculate_slant_range pt
                        (calculate_sound_velocity temp s.salinity DEFAULT_DEPTH)) 0,
                    velocity := vrow }]) := by
  refine ⟨?_, ?_, ?_, ?_, ?_, ?_⟩
  · intro s cmd p l pre post now vt p3 temp pt sq hser hcmd hpre hbud hp3 hp
      h3 hv ht hpt hsq
    rw [send_command_followup s cmd p _ now vt hser hcmd]
    obtain ⟨a, s2, vrow, heq, hm⟩ :=
      followup_temp_metrics pre l post _ (format_command cmd true) now vt p3
        temp pt sq hpre hbud hp3 hp h3 hv ht hpt hsq
    rw [heq]
    simp only [Except.map]
    refine ⟨_, _, _, vrow, rfl, ?_⟩
    rw [hm, primary_state_metrics, primary_state_salinity]
  · intro s cmd p l pre post now vt p3 hser hcmd hpre hbud hp3 hp hid
    have h : ¬ (p3.cmd_id = "3" ∧ p3.value ≠ "") := by
      rintro ⟨h3, -⟩
      rcases hid with h0 | h0 | h0 <;> rw [h0] at h3 <;> simp at h3
    rw [send_command_followup s cmd p _ now vt hser hcmd]
    obtain ⟨a, s2, heq, hm⟩ :=
      followup_nontemp_metrics pre l post _ (format_command cmd true) now vt p3
        hpre hbud hp3 hp h
    rw [heq]
    simp only [Except.map]
    refine ⟨_, _, _, rfl, ?_⟩
    rw [hm, primary_state_metrics]
  · intro s cmd p rest now vt hser hcmd hin
    rw [send_command_followup s cmd p rest now vt hser hcmd]
    obtain ⟨k, hk, hb⟩ :=
      followup_no_p3 rest 0 [] _ (format_command cmd true) now vt
        (by norm_num) hin
    rw [hk]
    simp only [Except.map, List.nil_append]
    exact ⟨_, _, _, _, rfl, primary_state_metrics _ _ _ _ _ _⟩
  · intro s cmd p l pre post now vt p3 hser hcmd hpre hbud hp3 hp h
    rw [send_command_followup s cmd p _ now vt hser hcmd]
    obtain ⟨a, s2, heq, hm⟩ :=
      followup_nontemp_metrics pre l post _ (format_command cmd true) now vt p3
        hpre hbud hp3 hp h
    rw [heq]
    simp only [Except.map]
    refine ⟨_, _, _, rfl, ?_⟩
    rw [hm, primary_state_metrics]
  · intro s cmd p l pre post now vt hser hcmd hpre hbud hp3 hp
    rw [send_command_followup s cmd p _ now vt hser hcmd]
    obtain ⟨a, s2, heq, hm⟩ :=
      followup_malformed_metrics pre l post _ (format_command cmd true) now vt
        hpre hbud hp3 hp
    rw [heq]
    simp only [Except.map]
    refine ⟨_, _, _, rfl, ?_⟩
    rw [hm, primary_state_metrics]
  · intro s cmd p rest now vt m a s2 rem hser hcmd h
    rw [send_command_followup s cmd p rest now vt hser hcmd] at h
    obtain ⟨k, hpre, hbr⟩ :=
      followup_run rest 0 []
        (if trimS p = ""
          then { s with written := s.written ++ [format_command cmd true ++ "\n"] }
          else log_communication
            { s with written := s.written ++ [format_command cmd true ++ "\n"] }
            (some (format_command cmd true)) (some (trimS p)) now)
        (format_command cmd true) now vt (by norm_num)
    rcases hbr with ⟨hok, hb, hm⟩ | ⟨l, post, hdrop, hp3, hb, heq⟩
    · rw [hok] at h
      simp only [Except.map, Except.ok.injEq, Prod.mk.injEq] at h
      left
      rw [← h.2.2.1]
      exact primary_state_metrics _ _ _ _ _ _
    · rw [heq] at h
      cases hp : parse_puwv3 (trimS l) with
      | none =>
        rw [processPuwv3_parse_none _ _ _ _ _ _ hp] at h
        simp only [Except.map, Except.ok.injEq, Prod.mk.injEq] at h
        left
        rw [← h.2.2.1, log_communication_metrics]
        exact primary_state_metrics _ _ _ _ _ _
      | some p3 =>
        by_cases hcond : p3.cmd_id = "3" ∧ p3.value ≠ ""
        case neg =>
          rw [processPuwv3_not_temp _ _ _ _ _ _ p3 hp hcond] at h
          simp only [Except.map, Except.ok.injEq, Prod.mk.injEq] at h
          left
          rw [← h.2.2.1, log_communication_metrics]
          exact primary_state_metrics _ _ _ _ _ _
        case pos =>
          obtain ⟨h3, hv⟩ := hcond
          cases ht : parseFloat p3.value with
          | none =>
            rw [processPuwv3_value_err _ _ _ _ _ _ p3 hp h3 hv ht] at h
            simp [Except.map] at h
          | some temp =>
            cases hpt : parseFloat p3.prop_time with
            | none =>
              rw [processPuwv3_prop_err _ _ _ _ _ _ p3 temp hp h3 hv ht hpt] at h
              simp [Except.map] at h
            | some pt =>
              cases hsq : parseFloat p3.signal_quality with
              | none =>
                rw [processPuwv3_sq_err _ _ _ _ _ _ p3 temp pt hp h3 hv ht hpt
                  hsq] at h
                simp [Except.map] at h
              | some sq =>
                rw [processPuwv3_temp_ok _ _ _ _ _ _ p3 temp pt sq hp h3 hv ht
                  hpt hsq] at h
                simp only [Except.map, Except.ok.injEq, Prod.mk.injEq] at h
                right
                refine ⟨p3, temp, pt, sq, h3, hv, ht, hpt, hsq, ?_⟩
                rw [← h.2.2.1, log_communication_metrics, log_metrics_metrics,
                  calculate_velocity_metrics, primary_state_metrics,
                  primary_state_salinity]
                exact ⟨_, rfl⟩

unseal Rat.mul Rat.add Rat.inv Rat.ofScientific in
/-- C6, witness for the amended theorem: a concrete temperature exchange
that persists exactly one MetricSample. -/
theorem c6_witness :
    ∃ m a s2 vrow,
      send_command
        { ser := some true, salinity := 0, last_range := none,
          last_range_time := none, written := [], log := [], metrics := [] }
        "$PUWV2,0,0,3" true true
        ("OK" :: ([""] ++ "$PUWV3,1,3,0.01,50,20.0" :: ["$PUWV3,LATE"])) 0 0
        = .ok (m, a, s2, ["$PUWV3,LATE"])
      ∧ s2.metrics = ([] : List MetricRow)
          ++ [{ timestamp := 0, command := format_command "$PUWV2,0,0,3" true,
                response_type := "PUWV3", remote_addr := "1", cmd_id := "3",
                prop_time := 1 / 100, signal_quality := 50, value := 20,
                slant_range := calculate_slant_range (1 / 100)
                  (calculate_sound_velocity 20 0 DEFAULT_DEPTH),
                horiz_dist := calculate_horizontal_distance
                  (calculate_slant_range (1 / 100)
                    (calculate_sound_velocity 20 0 DEFAULT_DEPTH)) 0,
                velocity := vrow }] :=
  c6_temperature_metrics.1
    { ser := some true, salinity := 0, last_range := none,
      last_range_time := none, written := [], log := [], metrics := [] }
    "$PUWV2,0,0,3" "OK" "$PUWV3,1,3,0.01,50,20.0" [""] ["$PUWV3,LATE"] 0 0
    { cmd_type := "$PUWV", remote_addr := "1", cmd_id := "3",
      prop_time := "0.01", signal_quality := "50", value := "20.0",
      azimuth := "" }
    20 (1 / 100) 50 rfl (by decide) (by decide) (by decide) (by decide)
    (by decide) (by decide) (by decide) (by decide) (by decide) (by decide)

/-- C7: the follow-up polling loop always stops at the first RemoteResponse
line, leaving everything after it unread, and with no RemoteResponse it
returns the collected non-empty lines normally, never an error, after at
most 5 reads that came back empty. The last conjunct settles every
execution with no hypothesis on the stream: some $PUWV3-free prefix is
consumed with at most 5 empty reads, and then either the loop gives up
normally, returning the collected lines with everything further
(including any late RemoteResponse beyond the empty-read budget) unread,
or it reaches a first RemoteResponse within budget and stops there. -/
theorem c7_followup_bounded :
    (∀ (s : MState) (cmd p l : String) (pre post : List String) (now vt : ℚ),
      s.ser = some true → strStartsWith cmd "$PUWV2" = true →
      (∀ x ∈ pre, strStartsWith (trimS x) "$PUWV3" = false) →
      countEmptyTrim pre ≤ 4 →
      strStartsWith (trimS l) "$PUWV3" = true →
      Except.map (fun r => (r.1, r.2.1, r.2.2.1))
          (send_command s cmd true true (p :: (pre ++ l :: post)) now vt)
        = Except.map (fun r => (r.1, r.2.1, r.2.2.1))
            (send_command s cmd true true (p :: (pre ++ [l])) now vt)
      ∧ (∀ m a s2 rem,
          send_command s cmd true true (p :: (pre ++ l :: post)) now vt
            = .ok (m, a, s2, rem) → rem = post))
  ∧ (∀ (s : MState) (cmd p : String) (rest : List String) (now vt : ℚ),
      s.ser = some true → strStartsWith cmd "$PUWV2" = true →
      (∀ x ∈ rest, strStartsWith (trimS x) "$PUWV3" = false) →
      ∃ k s2,
        send_command s cmd true true (p :: rest) now vt
          = .ok ((if trimS p = "" then none else some (trimS p)),
              collectNonEmpty (rest.take k), s2, rest.drop k)
        ∧ countEmptyTrim (rest.take k) ≤ 5)
  ∧ (∀ (s : MState) (cmd p : String) (rest : List String) (now vt : ℚ),
      s.ser = some true → strStartsWith cmd "$PUWV2" = true →
      ∃ k,
        (∀ x ∈ rest.take k, strStartsWith (trimS x) "$PUWV3" = false)
        ∧ ((∃ s2,
              send_command s cmd true true (p :: rest) now vt
                = .ok ((if trimS p = "" then none else some (trimS p)),
                    collectNonEmpty (rest.take k), s2, rest.drop k)
              ∧ countEmptyTrim (rest.take k) ≤ 5
              ∧ (countEmptyTrim (rest.take k) = 5 ∨ rest.drop k = []))
          ∨ (∃ l post, rest.drop k = l :: post
              ∧ strStartsWith (trimS l) "$PUWV3" = true
              ∧ countEmptyTrim (rest.take k) ≤ 4
              ∧ Except.map (fun r => (r.1, r.2.1, r.2.2.1))
                  (send_command s cmd true true (p :: rest) now vt)
                = Except.map (fun r => (r.1, r.2.1, r.2.2.1))
                    (send_command s cmd true true
                      (p :: (rest.take k ++ [l])) now vt)
              ∧ (∀ m a s2 rem,
                  send_command s cmd true true (p :: rest) now vt
                    = .ok (m, a, s2, rem) → rem = post)))) := by
  refine ⟨?_, ?_, ?_⟩
  · intro s cmd p l pre post now vt hser hcmd hpre hbud hp3
    exact send_stops_at_p3 s cmd p l pre post now vt hser hcmd hpre hbud hp3
  · intro s cmd p rest now vt hser hcmd hin
    rw [send_command_followup s cmd p rest now vt hser hcmd]
    obtain ⟨k, hk, hb⟩ :=
      followup_no_p3 rest 0 [] _ (format_command cmd true) now vt
        (by norm_num) hin
    rw [hk]
    simp only [Except.map, List.nil_append]
    exact ⟨k, _, rfl, by simpa using hb⟩
  · intro s cmd p rest now vt hser hcmd
    obtain ⟨k, hpre, hbr⟩ :=
      followup_run rest 0 []
        (if trimS p = ""
          then { s with written := s.written ++ [format_command cmd true ++ "\n"] }
          else log_communication
            { s with written := s.written ++ [format_command cmd true ++ "\n"] }
            (some (format_command cmd true)) (some (trimS p)) now)
        (format_command cmd true) now vt (by norm_num)
    refine ⟨k, hpre, ?_⟩
    rcases hbr with ⟨hok, hb, hm⟩ | ⟨l, post, hdrop, hp3, hb, heq⟩
    · refine Or.inl
        ⟨(if trimS p = ""
            then { s with written := s.written ++ [format_command cmd true ++ "\n"] }
            else log_communication
              { s with written := s.written ++ [format_command cmd true ++ "\n"] }
              (some (format_command cmd true)) (some (trimS p)) now),
          ?_, by simpa using hb, ?_⟩
      · rw [send_command_followup s cmd p rest now vt hser hcmd, hok]
        simp only [Except.map, List.nil_append]
      · rcases hm with hm | hm
        · exact Or.inl (by simpa using hm)
        · exact Or.inr hm
    · have hsplit : rest = rest.take k ++ l :: post := by
        conv_lhs => rw [← List.take_append_drop k rest]
        rw [hdrop]
      have hstops :=
        send_stops_at_p3 s cmd p l (rest.take k) post now vt hser hcmd hpre
          (by simpa using hb) hp3
      rw [← hsplit] at hstops
      exact Or.inr ⟨l, post, hdrop, hp3, by simpa using hb, hstops.1, hstops.2⟩

/-- C7, witness: a concrete exchange whose result does not depend on the
lines after the first RemoteResponse. -/
theorem c7_witness :
    Except.map (fun r => (r.1, r.2.1, r.2.2.1))
        (send_command
          { ser := some true, salinity := 0, last_range := none,
            last_range_time := none, written := [], log := [], metrics := [] }
          "$PUWV2,0,0,0" true true
          ("OK" :: ([] ++ "$PUWV3,9,0,0.5,77" :: ["IGNORED"])) 0 0)
      = Except.map (fun r => (r.1, r.2.1, r.2.2.1))
          (send_command
            { ser := some true, salinity := 0, last_range := none,
              last_range_time := none, written := [], log := [], metrics := [] }
            "$PUWV2,0,0,0" true true
            ("OK" :: ([] ++ ["$PUWV3,9,0,0.5,77"])) 0 0) :=
  ((c7_followup_bounded.1
    { ser := some true, salinity := 0, last_range := none,
      last_range_time := none, written := [], log := [], metrics := [] }
    "$PUWV2,0,0,0" "OK" "$PUWV3,9,0,0.5,77" [] ["IGNORED"] 0 0
    rfl (by decide) (by simp) (by decide) (by decide))).1

/-- C8: calculate_sound_velocity agrees everywhere with the Mackenzie
polynomial exactly as the spec writes it, and at T=20, S=35, D=0 the
value is within 0.01 of 1521.46. -/
theorem c8_sound_velocity :
    (∀ T S D : ℚ, calculate_sound_velocity T S D = mackenzieSpec T S D)
  ∧ |calculate_sound_velocity 20 35 0 - 1521.46| ≤ 0.01 := by
  constructor
  · intro T S D
    unfold calculate_sound_velocity mackenzieSpec
    norm_num
    ring
  · rw [abs_sub_le_iff]
    constructor <;> norm_num [calculate_sound_velocity]

/-- C8, witness at the example point of the spec. -/
theorem c8_witness : calculate_sound_velocity 20 35 0 = mackenzieSpec 20 35 0 :=
  c8_sound_velocity.1 20 35 0

/-- C9: horizontal_distance returns 0 in the degenerate geometry where the
depth difference dominates the slant range, otherwise the square root of
the difference of squares (characterised by its square and nonnegativity);
in particular horizontal_distance 10 6 = 8 and horizontal_distance 5 6 = 0. -/
theorem c9_horizontal_distance :
    (∀ sr dd : ℚ, |dd| ≥ sr → calculate_horizontal_distance sr dd = 0)
  ∧ (∀ sr dd : ℚ, |dd| < sr →
      calculate_horizontal_distance sr dd
          = Real.sqrt ((sr : ℝ) ^ 2 - (dd : ℝ) ^ 2)
        ∧ calculate_horizontal_distance sr dd ^ 2 = (sr : ℝ) ^ 2 - (dd : ℝ) ^ 2
        ∧ 0 ≤ calculate_horizontal_distance sr dd)
  ∧ calculate_horizontal_distance 10 6 = 8
  ∧ calculate_horizontal_distance 5 6 = 0 := by
  refine ⟨?_, ?_, ?_, ?_⟩
  · intro sr dd h
    simp [calculate_horizontal_distance, h]
  · intro sr dd h
    have hn : ¬ (|dd| ≥ sr) := not_le.mpr h
    have hq : (dd : ℚ) ^ 2 < sr ^ 2 := by
      obtain ⟨h1, h2⟩ := abs_lt.mp h
      exact sq_lt_sq' h1 h2
    have hsq : (0 : ℝ) ≤ (sr : ℝ) ^ 2 - (dd : ℝ) ^ 2 := by
      have : ((dd : ℝ)) ^ 2 < ((sr : ℝ)) ^ 2 := by exact_mod_cast hq
      linarith
    refine ⟨by simp [calculate_horizontal_distance, hn], ?_, ?_⟩
    · simp [calculate_horizontal_distance, hn, Real.sq_sqrt hsq]
    · simp [calculate_horizontal_distance, hn, Real.sqrt_nonneg]
  · rw [calculate_horizontal_distance, if_neg (by norm_num)]
    push_cast
    rw [show ((10 : ℝ) ^ 2 - 6 ^ 2) = 8 ^ 2 by norm_num]
    exact Real.sqrt_sq (by norm_num)
  · rw [calculate_horizontal_distance, if_pos (by norm_num)]

/-- C9, witness: the two example points. -/
theorem c9_witness :
    calculate_horizontal_distance 10 6 = 8
  ∧ calculate_horizontal_distance 5 6 = 0 :=
  ⟨c9_horizontal_distance.2.2.1, c9_horizontal_distance.2.2.2⟩

/-- C10: with no serial port open (never connected, or connected but
closed), send_command returns (None, []) at once: the state, including the
transport write log, the communication log, the metrics file and the range
history, is unchanged, and no line of the input stream is consumed. -/
theorem c10_disconnected_noop (s : MState) (command : String) (wr wp : Bool)
    (input : List String) (now vt : ℚ)
    (h : s.ser = none ∨ s.ser = some false) :
    send_command s command wr wp input now vt = .ok (none, [], s, input) := by
  apply send_command_closed
  rcases h with h | h <;> simp [h]

/-- C10, witness at a concrete never-connected state. -/
theorem c10_witness :
    send_command
      { ser := none, salinity := 0, last_range := none, last_range_time := none,
        written := [], log := [], metrics := [] }
      "$PUWV?,0" true false ["$PUWV!,x"] 0 0
      = .ok (none, [],
          { ser := none, salinity := 0, last_range := none, last_range_time := none,
            written := [], log := [], metrics := [] }, ["$PUWV!,x"]) :=
  c10_disconnected_noop _ "$PUWV?,0" true false ["$PUWV!,x"] 0 0 (Or.inl rfl)

end Uwave
